import Mathlib

/-!
Verification of the LTM-Mirror worker (src/index.js): a key-value mirror API
exposing GET/PUT/DELETE under the /static/ path, with pre-shared-key
authentication in the X-FASTF1-LIVETIMING-MIRROR-AUTH header.

The handler is embedded shallowly: JS strings are Lean strings, the
JS string length property is the UTF-16 code-unit count, TextEncoder is the
UTF-8 encoding, and the R2 bucket is an association list threaded through
the handler together with a trace of bucket operations.
-/

namespace LTMMirror

/-- A byte sequence (each entry is a byte value below 256 for well-formed
encodings; the model does not depend on that bound). -/
abbrev Bytes := List Nat

/-- Number of UTF-16 code units a Unicode code point occupies: 1 inside the
basic multilingual plane, 2 (a surrogate pair) above it.  The JS string
length property counts these units. -/
def utf16Len (c : Char) : Nat :=
  if c.val.toNat < 0x10000 then 1 else 2

/-- The JS string length property: total UTF-16 code-unit count. -/
def jsLength (s : String) : Nat :=
  (s.data.map utf16Len).sum

/-- UTF-8 encoding of one code point, as TextEncoder produces it. -/
def utf8Bytes (c : Char) : List Nat :=
  let n := c.val.toNat
  if n < 0x80 then [n]
  else if n < 0x800 then [0xC0 + n / 0x40, 0x80 + n % 0x40]
  else if n < 0x10000 then
    [0xE0 + n / 0x1000, 0x80 + (n / 0x40) % 0x40, 0x80 + n % 0x40]
  else
    [0xF0 + n / 0x40000, 0x80 + (n / 0x1000) % 0x40,
     0x80 + (n / 0x40) % 0x40, 0x80 + n % 0x40]

/-- TextEncoder.encode: the UTF-8 byte encoding of a string. -/
def encode (s : String) : Bytes :=
  (s.data.map utf8Bytes).flatten

/-- JS String.prototype.startsWith, expressed on the code-point sequence
(equivalent to the code-unit test whenever the search string is ASCII, as
every search string in the worker is). -/
def jsStartsWith (s search : String) : Bool :=
  List.isPrefixOf search.data s.data

/-- JS String.prototype.slice(n) for a non-negative index, expressed on
the code-point sequence (the worker only slices off the 8 ASCII
characters of the /static/ path, where code points and
code units coincide). -/
def jsDrop (s : String) (n : Nat) : String :=
  String.mk (s.data.drop n)

/-- JS String.prototype.endsWith, expressed on the code-point sequence
(equivalent to the code-unit test for the ASCII search strings the worker
uses). -/
def jsEndsWith (s search : String) : Bool :=
  List.isSuffixOf search.data s.data

/-- One pass over zipped byte pairs, accumulating the bitwise OR of the
XOR of each pair and counting every visited pair.  The accumulator is
inspected only after the whole list has been traversed. -/
def tseFold (ps : List (Nat × Nat)) (acc : Nat) (steps : Nat) : Nat × Nat :=
  match ps with
  | [] => (acc, steps)
  | p :: rest => tseFold rest (acc ||| (p.1 ^^^ p.2)) (steps + 1)

/-- Modelled from the spec: crypto.subtle.timingSafeEqual, the platform
primitive the worker calls, is a constant-time byte-slice equality check
(the worker only calls it on buffers of equal byte length).  It XORs the
byte pairs, ORs the differences together over the whole input and tests
the final accumulator, never exiting early. -/
def timingSafeEqual (a b : Bytes) : Bool :=
  (tseFold (a.zip b) 0 0).1 == 0

/-- Number of byte pairs the comparison visits before producing its
answer: the model of its execution time. -/
def tseVisited (a b : Bytes) : Nat :=
  (tseFold (a.zip b) 0 0).2

/-- Result of the authentication block (index.js lines 33-46): the final
value of isAuthenticated, plus whether the byte-wise comparison
(timingSafeEqual) was actually invoked. -/
structure AuthResult where
  isAuthenticated : Bool
  byteCompared : Bool
  deriving DecidableEq, Repr

/-- The authentication block of the handler (index.js lines 33-46):
the guard on line 38 compares the JS length properties of the token and
the secret (UTF-16 code units); inside it, line 43 compares the byte
lengths of the two UTF-8 encodings; only when both guards pass is
timingSafeEqual invoked. -/
def authCheck (authToken secret : String) : AuthResult :=
  if jsLength authToken = jsLength secret then
    let a := encode authToken
    let b := encode secret
    if a.length = b.length then
      { isAuthenticated := timingSafeEqual a b, byteCompared := true }
    else
      { isAuthenticated := false, byteCompared := false }
  else
    { isAuthenticated := false, byteCompared := false }

/-- The authentication procedure as the spec sentence describes it:
compare only the encoded byte lengths (not the character lengths), and
perform the byte-wise comparison exactly when they match.  Written for
comparison against authCheck, which is the code. -/
def authCheckClaimed (authToken secret : String) : AuthResult :=
  let a := encode authToken
  let b := encode secret
  if a.length = b.length then
    { isAuthenticated := timingSafeEqual a b, byteCompared := true }
  else
    { isAuthenticated := false, byteCompared := false }

/-- An object held by the R2 bucket: payload bytes plus HTTP metadata
(content type) plus the content-derived entity tag. -/
structure StoredObject where
  body : Bytes
  contentType : String
  httpEtag : String
  deriving DecidableEq, Repr

/-- Modelled from the spec: the content-derived entity tag the blob store
computes for a payload (R2Object.httpEtag); any fixed function of the
content serves the model. -/
def etagOf (b : Bytes) : String :=
  toString b

/-- Modelled from the spec: R2Object.writeHttpMetadata copies the stored
HTTP metadata (here: the content type) into a fresh header list. -/
def writeHttpMetadata (o : StoredObject) : List (String × String) :=
  [("content-type", o.contentType)]

/-- The R2 bucket state: an association list from keys to stored objects
(lookup takes the most recent binding). -/
abbrev Store := List (String × StoredObject)

/-- env.LIVETIMING_BUCKET.get -/
def storeGet (s : Store) (key : String) : Option StoredObject :=
  s.lookup key

/-- env.LIVETIMING_BUCKET.put: overwrites any existing binding. -/
def storePut (s : Store) (key : String) (v : StoredObject) : Store :=
  (key, v) :: s

/-- env.LIVETIMING_BUCKET.delete: removes every binding of the key. -/
def storeDelete (s : Store) (key : String) : Store :=
  s.filter (fun p => p.1 ≠ key)

/-- One invocation of the blob store, recorded in the trace. -/
inductive StoreOp where
  | get (key : String)
  | put (key : String) (value : StoredObject)
  | del (key : String)
  deriving DecidableEq, Repr

/-- Headers.set: replaces any entry of the same name, appends otherwise. -/
def headersSet (hs : List (String × String)) (name value : String) :
    List (String × String) :=
  hs.filter (fun p => p.1 ≠ name) ++ [(name, value)]

/-- An HTTP response: status, body bytes, headers.  String bodies are
carried as their UTF-8 bytes. -/
structure Response where
  status : Nat
  body : Bytes
  headers : List (String × String)
  deriving DecidableEq, Repr

/-- The worker environment: optional secret, optional cache age, bucket.
env.AUTH_KEY_SECRET is none when the variable is absent (undefined). -/
structure Env where
  AUTH_KEY_SECRET : Option String
  MAX_CACHE_AGE : Option Nat
  LIVETIMING_BUCKET : Store

/-- The parts of the incoming request the handler reads: method, URL
pathname, the X-FASTF1-LIVETIMING-MIRROR-AUTH header (none when absent),
and the body bytes. -/
structure Request where
  method : String
  pathname : String
  authHeader : Option String
  body : Bytes

/-- JS "x || d" on an optional number: undefined and 0 are falsy. -/
def jsOr (x : Option Nat) (d : Nat) : Nat :=
  match x with
  | none => d
  | some n => if n = 0 then d else n

/-- Outcome of one fetch call: a response together with the bucket state
after the call and the trace of bucket operations, or a thrown JS error
(reading the length property of an undefined AUTH_KEY_SECRET). -/
inductive FetchResult where
  | ok (response : Response) (store : Store) (ops : List StoreOp)
  | jsError (msg : String)
  deriving DecidableEq, Repr

/-- Status of a fetch outcome, when it is a response. -/
def FetchResult.status : FetchResult → Option Nat
  | .ok r _ _ => some r.status
  | .jsError _ => none

/-- The methods the worker supports (index.js line 27). -/
def supportedMethods : List String := ["GET", "PUT", "DELETE"]

/-- The methods that require authentication (index.js line 28). -/
def authenticatedMethods : List String := ["PUT", "DELETE"]

/-- Content type chosen for a PUT from the key suffix
(index.js lines 68-74). -/
def contentTypeFor (key : String) : String :=
  if jsEndsWith key ".jsonStream" then "application/octet-stream"
  else if jsEndsWith key ".json" then "application/json"
  else ""

/-- The worker fetch handler, translated branch by branch from
src/index.js.  Differences from the JS text are only representational:
the bucket is threaded explicitly and its calls are traced; accessing the
length property of an undefined AUTH_KEY_SECRET surfaces as jsError. -/
def fetch (request : Request) (env : Env) : FetchResult :=
  if ¬ (jsStartsWith request.pathname "/static/") then
    .ok ⟨400, encode "Bad Request", []⟩ env.LIVETIMING_BUCKET []
  else
    let key := jsDrop request.pathname 8
    let CACHE_MAX_AGE := jsOr env.MAX_CACHE_AGE 3600
    let authToken := request.authHeader.getD ""
    match env.AUTH_KEY_SECRET with
    | none => .jsError "TypeError: cannot read length of undefined"
    | some AUTH_KEY_SECRET =>
      let auth := authCheck authToken AUTH_KEY_SECRET
      if ¬ (request.method ∈ supportedMethods) then
        .ok ⟨405, encode "Method Not Allowed",
             [("Allow", String.intercalate ", " supportedMethods)]⟩
          env.LIVETIMING_BUCKET []
      else if request.method ∈ authenticatedMethods ∧ ¬ auth.isAuthenticated then
        .ok ⟨401, encode "Unauthorized", []⟩ env.LIVETIMING_BUCKET []
      else if request.method = "PUT" then
        let contentTypeValue := contentTypeFor key
        let obj : StoredObject :=
          ⟨request.body, contentTypeValue, etagOf request.body⟩
        .ok ⟨200, encode ("Put " ++ key ++ " successfully!"), []⟩
          (storePut env.LIVETIMING_BUCKET key obj) [.put key obj]
      else if request.method = "GET" then
        if key = "" then
          .ok ⟨200, encode "Status OK", []⟩ env.LIVETIMING_BUCKET []
        else
          match storeGet env.LIVETIMING_BUCKET key with
          | none =>
            .ok ⟨404, encode "Object Not Found", []⟩
              env.LIVETIMING_BUCKET [.get key]
          | some object =>
            let headers :=
              headersSet
                (headersSet (writeHttpMetadata object) "etag" object.httpEtag)
                "Cache-Control" ("public, max-age=" ++ toString CACHE_MAX_AGE)
            .ok ⟨200, object.body, headers⟩ env.LIVETIMING_BUCKET [.get key]
      else if request.method = "DELETE" then
        .ok ⟨200, encode "Deleted!", []⟩
          (storeDelete env.LIVETIMING_BUCKET key) [.del key]
      else
        .ok ⟨405, encode "Method Not Allowed",
             [("Allow", String.intercalate ", " supportedMethods)]⟩
          env.LIVETIMING_BUCKET []

/-! ## Helper lemmas -/

theorem tseFold_snd (ps : List (Nat × Nat)) (acc st : Nat) :
    (tseFold ps acc st).2 = st + ps.length := by
  induction ps generalizing acc st with
  | nil => simp [tseFold]
  | cons p rest ih => simp [tseFold, ih]; omega

theorem tseFold_fst_self (l : Bytes) (acc st : Nat) :
    (tseFold (l.zip l) acc st).1 = acc := by
  induction l generalizing acc st with
  | nil => simp [tseFold]
  | cons x rest ih =>
    rw [List.zip_cons_cons]
    simp only [tseFold, Nat.xor_self, Nat.or_zero]
    exact ih _ _

theorem timingSafeEqual_self (a : Bytes) : timingSafeEqual a a = true := by
  simp [timingSafeEqual, tseFold_fst_self]

theorem tseVisited_of_length_eq (a b : Bytes) (h : a.length = b.length) :
    tseVisited a b = a.length := by
  simp [tseVisited, tseFold_snd, List.length_zip, h]

theorem authCheck_self (s : String) : authCheck s s = ⟨true, true⟩ := by
  simp [authCheck, timingSafeEqual_self]

theorem storeGet_storePut_self (σ : Store) (k : String) (v : StoredObject) :
    storeGet (storePut σ k v) k = some v := by
  simp [storeGet, storePut, List.lookup]

theorem storeGet_storeDelete_self (σ : Store) (k : String) :
    storeGet (storeDelete σ k) k = none := by
  induction σ with
  | nil => rfl
  | cons p rest ih =>
    obtain ⟨a, v⟩ := p
    by_cases h : a = k
    · simpa [storeDelete, List.filter_cons, h] using ih
    · have hk : (k == a) = false := beq_eq_false_iff_ne.mpr (Ne.symm h)
      simpa [storeDelete, storeGet, List.filter_cons, h, List.lookup, hk] using ih

theorem jsEndsWith_json_not_jsonStream (key : String)
    (h : jsEndsWith key ".json" = true) :
    jsEndsWith key ".jsonStream" = false := by
  rw [jsEndsWith, List.isSuffixOf_iff_suffix] at h
  by_contra hc
  rw [Bool.not_eq_false, jsEndsWith, List.isSuffixOf_iff_suffix] at hc
  rcases List.suffix_or_suffix_of_suffix h hc with h1 | h2
  · exact absurd h1 (by decide)
  · exact absurd h2 (by decide)

/-! ## Claims -/

/-- C1 (counterexample): the presented credential "ab" and the secret "é"
have UTF-8 encodings of equal byte length (two bytes each), yet the
handler fails authentication without ever invoking the byte-wise
comparison, because its first guard compares the JS character lengths
(2 versus 1); the procedure the claim describes would have performed the
byte-wise comparison here. -/
theorem c1_counterexample :
    (encode "ab").length = (encode "é").length ∧
    (authCheck "ab" "é").byteCompared = false ∧
    authCheck "ab" "é" ≠ authCheckClaimed "ab" "é" := by decide

/-- C1 (amended): the authentication check first compares the character
(UTF-16 code-unit) lengths of credential and secret, then the encoded
byte lengths; the byte-wise comparison is performed exactly when both
agree, and the check authenticates exactly when the byte-wise comparison
is performed and succeeds. -/
theorem c1_length_gates (t s : String) :
    (authCheck t s).byteCompared =
      (decide (jsLength t = jsLength s) &&
       decide ((encode t).length = (encode s).length)) ∧
    (authCheck t s).isAuthenticated =
      ((authCheck t s).byteCompared && timingSafeEqual (encode t) (encode s)) := by
  unfold authCheck
  by_cases h1 : jsLength t = jsLength s <;>
    by_cases h2 : (encode t).length = (encode s).length <;>
      simp [h1, h2]

/-- C4: for two distinct credential strings of equal encoded byte length,
the byte-wise comparison visits every byte pair: the visit count equals
the full encoded length, the same count as for two equal strings of that
length, so it does not depend on where the first mismatch occurs. -/
theorem c4_constant_time (t s : String) (hne : t ≠ s)
    (hlen : (encode t).length = (encode s).length) :
    tseVisited (encode t) (encode s) = (encode t).length ∧
    tseVisited (encode t) (encode s) = tseVisited (encode s) (encode s) := by
  refine ⟨tseVisited_of_length_eq _ _ hlen, ?_⟩
  rw [tseVisited_of_length_eq _ _ hlen, tseVisited_of_length_eq _ _ rfl, hlen]

/-- C4 witness: the constant-time property evaluated at the concrete
distinct equal-length credentials "a" and "b". -/
theorem c4_witness :
    tseVisited (encode "a") (encode "b") = (encode "a").length ∧
    tseVisited (encode "a") (encode "b") = tseVisited (encode "b") (encode "b") :=
  c4_constant_time "a" "b" (by decide) (by decide)

/-- C2: when AUTH_KEY_SECRET is absent from the environment, no request
is ever answered successfully: reading the length property of the
undefined secret throws before any method handling, so the only
non-thrown response is the 400 for a path outside /static/, the bucket
is never touched, and in particular no PUT or DELETE can succeed. -/
theorem c2_missing_secret_fails_closed (req : Request) (env : Env)
    (hsk : env.AUTH_KEY_SECRET = none) (resp : Response) (st : Store)
    (ops : List StoreOp) (hok : fetch req env = .ok resp st ops) :
    resp.status = 400 ∧ st = env.LIVETIMING_BUCKET ∧ ops = [] := by
  obtain ⟨m, p, ah, bd⟩ := req
  obtain ⟨sk, mca, σ⟩ := env
  obtain rfl : sk = none := hsk
  by_cases hsw : jsStartsWith p "/static/" = true
  · simp [fetch, hsw] at hok
  · simp only [Bool.not_eq_true] at hsw
    simp [fetch, hsw] at hok
    obtain ⟨rfl, rfl, rfl⟩ := hok
    exact ⟨rfl, rfl, rfl⟩

/-- C2 witness: with no secret configured, a PUT outside /static/ is
answered 400 with the bucket untouched. -/
theorem c2_witness :
    (Response.mk 400 (encode "Bad Request") []).status = 400 ∧
    ([] : Store) = (Env.mk none none []).LIVETIMING_BUCKET ∧
    ([] : List StoreOp) = [] :=
  c2_missing_secret_fails_closed ⟨"PUT", "/x", none, []⟩ ⟨none, none, []⟩ rfl
    ⟨400, encode "Bad Request", []⟩ [] [] (by decide)

/-- C3: with a configured non-empty secret, every PUT or DELETE under
/static/ whose presented credential (empty string when the header is
absent) does not authenticate is answered 401 Unauthorized with the
bucket untouched; and no GET request is ever answered 401, whatever the
credential or environment. -/
theorem c3_auth_enforcement :
    (∀ (req : Request) (env : Env) (s : String),
      env.AUTH_KEY_SECRET = some s → s ≠ "" →
      jsStartsWith req.pathname "/static/" = true →
      (req.method = "PUT" ∨ req.method = "DELETE") →
      (authCheck (req.authHeader.getD "") s).isAuthenticated = false →
      fetch req env =
        .ok ⟨401, encode "Unauthorized", []⟩ env.LIVETIMING_BUCKET []) ∧
    (∀ (req : Request) (env : Env) (resp : Response) (st : Store)
      (ops : List StoreOp),
      req.method = "GET" → fetch req env = .ok resp st ops →
      resp.status ≠ 401) := by
  constructor
  · intro req env s hsk hne hsw hm hauth
    obtain ⟨m, p, ah, bd⟩ := req
    obtain ⟨sk, mca, σ⟩ := env
    obtain rfl : sk = some s := hsk
    simp only at hsw hauth
    rcases hm with rfl | rfl <;>
      simp [fetch, hsw, hauth, supportedMethods, authenticatedMethods]
  · intro req env resp st ops hm hok
    obtain ⟨m, p, ah, bd⟩ := req
    obtain ⟨sk, mca, σ⟩ := env
    obtain rfl : m = "GET" := hm
    by_cases hsw : jsStartsWith p "/static/" = true
    · cases sk with
      | none => simp [fetch, hsw] at hok
      | some s =>
        by_cases hk : jsDrop p 8 = ""
        · simp [fetch, hsw, hk, supportedMethods, authenticatedMethods] at hok
          obtain ⟨rfl, rfl, rfl⟩ := hok
          decide
        · cases hobj : storeGet σ (jsDrop p 8) with
          | none =>
            simp [fetch, hsw, hk, hobj, supportedMethods,
              authenticatedMethods] at hok
            obtain ⟨rfl, rfl, rfl⟩ := hok
            decide
          | some o =>
            simp [fetch, hsw, hk, hobj, supportedMethods,
              authenticatedMethods] at hok
            obtain ⟨rfl, rfl, rfl⟩ := hok
            simp
    · simp only [Bool.not_eq_true] at hsw
      simp [fetch, hsw] at hok
      obtain ⟨rfl, rfl, rfl⟩ := hok
      decide

/-- C3 witness: a PUT under /static/ with no credential against the
secret "sec" is answered 401, and a concrete GET answer has a status
other than 401. -/
theorem c3_witness :
    fetch ⟨"PUT", "/static/k", none, []⟩ ⟨some "sec", none, []⟩ =
      .ok ⟨401, encode "Unauthorized", []⟩ ([] : Store) [] ∧
    (Response.mk 200 (encode "Status OK") []).status ≠ 401 :=
  ⟨c3_auth_enforcement.1 ⟨"PUT", "/static/k", none, []⟩ ⟨some "sec", none, []⟩
      "sec" rfl (by decide) (by decide) (Or.inl rfl) (by decide),
    c3_auth_enforcement.2 ⟨"GET", "/static/", none, []⟩ ⟨some "sec", none, []⟩
      ⟨200, encode "Status OK", []⟩ [] [] rfl (by decide)⟩

/-- C9: with a secret configured, any request under /static/ whose method
is none of GET, PUT, DELETE is answered 405 with an Allow header equal to
the string GET, PUT, DELETE (the supported methods joined by a comma and
a space), whatever credential is presented, with the bucket untouched. -/
theorem c9_unsupported_method (req : Request) (env : Env) (s : String)
    (hsk : env.AUTH_KEY_SECRET = some s)
    (hsw : jsStartsWith req.pathname "/static/" = true)
    (hm : req.method ∉ supportedMethods) :
    fetch req env =
      .ok ⟨405, encode "Method Not Allowed", [("Allow", "GET, PUT, DELETE")]⟩
        env.LIVETIMING_BUCKET [] := by
  obtain ⟨m, p, ah, bd⟩ := req
  obtain ⟨sk, mca, σ⟩ := env
  obtain rfl : sk = some s := hsk
  simp only at hsw hm
  have hi : String.intercalate ", " supportedMethods = "GET, PUT, DELETE" := rfl
  simp [fetch, hsw, hm, hi]

/-- C9 witness: a POST under /static/ is answered 405 with
Allow: GET, PUT, DELETE. -/
theorem c9_witness :
    fetch ⟨"POST", "/static/k", none, []⟩ ⟨some "sec", none, []⟩ =
      .ok ⟨405, encode "Method Not Allowed", [("Allow", "GET, PUT, DELETE")]⟩
        ([] : Store) [] :=
  c9_unsupported_method ⟨"POST", "/static/k", none, []⟩ ⟨some "sec", none, []⟩
    "sec" rfl (by decide) (by decide)

/-- C10: with a secret configured, a GET on exactly /static/ (empty key)
is answered 200 Status OK with no bucket operation at all and the bucket
state unchanged. -/
theorem c10_health_check (req : Request) (env : Env) (s : String)
    (hsk : env.AUTH_KEY_SECRET = some s) (hm : req.method = "GET")
    (hp : req.pathname = "/static/") :
    fetch req env = .ok ⟨200, encode "Status OK", []⟩ env.LIVETIMING_BUCKET [] := by
  obtain ⟨m, p, ah, bd⟩ := req
  obtain ⟨sk, mca, σ⟩ := env
  obtain rfl : sk = some s := hsk
  obtain rfl : m = "GET" := hm
  obtain rfl : p = "/static/" := hp
  have h1 : jsStartsWith "/static/" "/static/" = true := by decide
  have h2 : jsDrop "/static/" 8 = "" := by decide
  simp [fetch, h1, h2, supportedMethods, authenticatedMethods]

/-- C10 witness: the health check evaluated on a concrete environment. -/
theorem c10_witness :
    fetch ⟨"GET", "/static/", none, []⟩ ⟨some "sec", none, []⟩ =
      .ok ⟨200, encode "Status OK", []⟩ ([] : Store) [] :=
  c10_health_check ⟨"GET", "/static/", none, []⟩ ⟨some "sec", none, []⟩
    "sec" rfl rfl rfl

/-- C5: when AUTH_KEY_SECRET is configured as the empty string, a request
carrying no auth header presents the empty credential, which
authenticates against the empty secret, so a credential-less PUT under
/static/ succeeds with 200 and writes the bucket, and a credential-less
DELETE succeeds with 200 and deletes from the bucket. -/
theorem c5_empty_secret (p : String) (bd : Bytes) (σ : Store)
    (mca : Option Nat) (hsw : jsStartsWith p "/static/" = true) :
    (authCheck "" "").isAuthenticated = true ∧
    fetch ⟨"PUT", p, none, bd⟩ ⟨some "", mca, σ⟩ =
      .ok ⟨200, encode ("Put " ++ jsDrop p 8 ++ " successfully!"), []⟩
        (storePut σ (jsDrop p 8) ⟨bd, contentTypeFor (jsDrop p 8), etagOf bd⟩)
        [.put (jsDrop p 8) ⟨bd, contentTypeFor (jsDrop p 8), etagOf bd⟩] ∧
    fetch ⟨"DELETE", p, none, bd⟩ ⟨some "", mca, σ⟩ =
      .ok ⟨200, encode "Deleted!", []⟩ (storeDelete σ (jsDrop p 8))
        [.del (jsDrop p 8)] := by
  refine ⟨by decide, ?_, ?_⟩ <;>
    simp [fetch, hsw, authCheck_self, supportedMethods, authenticatedMethods]

/-- C5 witness: with the empty secret and no header, concrete PUT and
DELETE requests both succeed. -/
theorem c5_witness :
    fetch ⟨"PUT", "/static/k", none, []⟩ ⟨some "", none, []⟩ =
      .ok ⟨200, encode ("Put " ++ jsDrop "/static/k" 8 ++ " successfully!"), []⟩
        (storePut [] (jsDrop "/static/k" 8)
          ⟨[], contentTypeFor (jsDrop "/static/k" 8), etagOf []⟩)
        [.put (jsDrop "/static/k" 8)
          ⟨[], contentTypeFor (jsDrop "/static/k" 8), etagOf []⟩] ∧
    fetch ⟨"DELETE", "/static/k", none, []⟩ ⟨some "", none, []⟩ =
      .ok ⟨200, encode "Deleted!", []⟩ (storeDelete [] (jsDrop "/static/k" 8))
        [.del (jsDrop "/static/k" 8)] :=
  ⟨(c5_empty_secret "/static/k" [] [] none (by decide)).2.1,
   (c5_empty_secret "/static/k" [] [] none (by decide)).2.2⟩

/-- C6: with a correct credential and a non-empty key, the sequence PUT,
GET, DELETE, GET against the same key (each call taking the bucket the
previous one produced) yields 200 for the PUT, 200 with the bytes that
were put as body for the first GET, 200 for the DELETE, and 404 for the
final GET. -/
theorem c6_round_trip (p k s : String) (bd : Bytes) (σ : Store)
    (mca : Option Nat) (hsw : jsStartsWith p "/static/" = true)
    (hk : jsDrop p 8 = k) (hne : k ≠ "") :
    fetch ⟨"PUT", p, some s, bd⟩ ⟨some s, mca, σ⟩ =
      .ok ⟨200, encode ("Put " ++ k ++ " successfully!"), []⟩
        (storePut σ k ⟨bd, contentTypeFor k, etagOf bd⟩)
        [.put k ⟨bd, contentTypeFor k, etagOf bd⟩] ∧
    fetch ⟨"GET", p, some s, []⟩
        ⟨some s, mca, storePut σ k ⟨bd, contentTypeFor k, etagOf bd⟩⟩ =
      .ok ⟨200, bd,
          [("content-type", contentTypeFor k), ("etag", etagOf bd),
           ("Cache-Control", "public, max-age=" ++ toString (jsOr mca 3600))]⟩
        (storePut σ k ⟨bd, contentTypeFor k, etagOf bd⟩) [.get k] ∧
    fetch ⟨"DELETE", p, some s, []⟩
        ⟨some s, mca, storePut σ k ⟨bd, contentTypeFor k, etagOf bd⟩⟩ =
      .ok ⟨200, encode "Deleted!", []⟩
        (storeDelete (storePut σ k ⟨bd, contentTypeFor k, etagOf bd⟩) k)
        [.del k] ∧
    fetch ⟨"GET", p, some s, []⟩
        ⟨some s, mca, storeDelete (storePut σ k ⟨bd, contentTypeFor k, etagOf bd⟩) k⟩ =
      .ok ⟨404, encode "Object Not Found", []⟩
        (storeDelete (storePut σ k ⟨bd, contentTypeFor k, etagOf bd⟩) k)
        [.get k] := by
  subst hk
  have e1 : ("content-type" : String) ≠ "etag" := by decide
  have e2 : ("content-type" : String) ≠ "Cache-Control" := by decide
  have e3 : ("etag" : String) ≠ "Cache-Control" := by decide
  refine ⟨?_, ?_, ?_, ?_⟩
  · simp [fetch, hsw, authCheck_self, supportedMethods, authenticatedMethods]
  · simp [fetch, hsw, hne, authCheck_self, supportedMethods,
      authenticatedMethods, storeGet_storePut_self, headersSet,
      writeHttpMetadata, List.filter_cons, e1, e2, e3]
  · simp [fetch, hsw, authCheck_self, supportedMethods, authenticatedMethods]
  · simp [fetch, hsw, hne, authCheck_self, supportedMethods,
      authenticatedMethods, storeGet_storeDelete_self]

/-- C6 witness: the round trip evaluated on the concrete key k, secret
sec and payload [7], starting from the empty bucket. -/
theorem c6_witness :
    fetch ⟨"PUT", "/static/k", some "sec", [7]⟩ ⟨some "sec", none, []⟩ =
      .ok ⟨200, encode ("Put " ++ "k" ++ " successfully!"), []⟩
        (storePut [] "k" ⟨[7], contentTypeFor "k", etagOf [7]⟩)
        [.put "k" ⟨[7], contentTypeFor "k", etagOf [7]⟩] ∧
    fetch ⟨"GET", "/static/k", some "sec", []⟩
        ⟨some "sec", none, storePut [] "k" ⟨[7], contentTypeFor "k", etagOf [7]⟩⟩ =
      .ok ⟨200, [7],
          [("content-type", contentTypeFor "k"), ("etag", etagOf [7]),
           ("Cache-Control", "public, max-age=" ++ toString (jsOr none 3600))]⟩
        (storePut [] "k" ⟨[7], contentTypeFor "k", etagOf [7]⟩) [.get "k"] ∧
    fetch ⟨"DELETE", "/static/k", some "sec", []⟩
        ⟨some "sec", none, storePut [] "k" ⟨[7], contentTypeFor "k", etagOf [7]⟩⟩ =
      .ok ⟨200, encode "Deleted!", []⟩
        (storeDelete (storePut [] "k" ⟨[7], contentTypeFor "k", etagOf [7]⟩) "k")
        [.del "k"] ∧
    fetch ⟨"GET", "/static/k", some "sec", []⟩
        ⟨some "sec", none,
         storeDelete (storePut [] "k" ⟨[7], contentTypeFor "k", etagOf [7]⟩) "k"⟩ =
      .ok ⟨404, encode "Object Not Found", []⟩
        (storeDelete (storePut [] "k" ⟨[7], contentTypeFor "k", etagOf [7]⟩) "k")
        [.get "k"] :=
  c6_round_trip "/static/k" "k" "sec" [7] [] none (by decide) (by decide)
    (by decide)

/-- C7: an authenticated PUT stores the payload under the key with the
content type derived from the key suffix and responds 200 with body
Put key successfully, and the write overwrites any existing object at
that key; the suffix rule sends .jsonStream to
application/octet-stream, .json to application/json, and anything else to
the empty content type. -/
theorem c7_put_content_type (req : Request) (env : Env) (s : String)
    (hsk : env.AUTH_KEY_SECRET = some s)
    (hsw : jsStartsWith req.pathname "/static/" = true)
    (hm : req.method = "PUT")
    (hauth : (authCheck (req.authHeader.getD "") s).isAuthenticated = true) :
    fetch req env =
      .ok ⟨200, encode ("Put " ++ jsDrop req.pathname 8 ++ " successfully!"), []⟩
        (storePut env.LIVETIMING_BUCKET (jsDrop req.pathname 8)
          ⟨req.body, contentTypeFor (jsDrop req.pathname 8), etagOf req.body⟩)
        [.put (jsDrop req.pathname 8)
          ⟨req.body, contentTypeFor (jsDrop req.pathname 8), etagOf req.body⟩] ∧
    storeGet
        (storePut env.LIVETIMING_BUCKET (jsDrop req.pathname 8)
          ⟨req.body, contentTypeFor (jsDrop req.pathname 8), etagOf req.body⟩)
        (jsDrop req.pathname 8) =
      some ⟨req.body, contentTypeFor (jsDrop req.pathname 8), etagOf req.body⟩ ∧
    (∀ key : String, jsEndsWith key ".jsonStream" = true →
      contentTypeFor key = "application/octet-stream") ∧
    (∀ key : String, jsEndsWith key ".json" = true →
      contentTypeFor key = "application/json") ∧
    (∀ key : String, jsEndsWith key ".jsonStream" = false →
      jsEndsWith key ".json" = false → contentTypeFor key = "") := by
  obtain ⟨m, p, ah, bd⟩ := req
  obtain ⟨sk, mca, σ⟩ := env
  obtain rfl : sk = some s := hsk
  obtain rfl : m = "PUT" := hm
  simp only at hsw hauth ⊢
  refine ⟨?_, storeGet_storePut_self _ _ _, ?_, ?_, ?_⟩
  · simp [fetch, hsw, hauth, supportedMethods, authenticatedMethods]
  · intro key h
    simp [contentTypeFor, h]
  · intro key h
    simp [contentTypeFor, jsEndsWith_json_not_jsonStream key h, h]
  · intro key h1 h2
    simp [contentTypeFor, h1, h2]

/-- C7 witness: the authenticated PUT of key a.json evaluated concretely,
together with the overwrite read-back. -/
theorem c7_witness :
    fetch ⟨"PUT", "/static/a.json", some "sec", [1]⟩ ⟨some "sec", none, []⟩ =
      .ok ⟨200,
          encode ("Put " ++ jsDrop "/static/a.json" 8 ++ " successfully!"), []⟩
        (storePut [] (jsDrop "/static/a.json" 8)
          ⟨[1], contentTypeFor (jsDrop "/static/a.json" 8), etagOf [1]⟩)
        [.put (jsDrop "/static/a.json" 8)
          ⟨[1], contentTypeFor (jsDrop "/static/a.json" 8), etagOf [1]⟩] ∧
    storeGet
        (storePut [] (jsDrop "/static/a.json" 8)
          ⟨[1], contentTypeFor (jsDrop "/static/a.json" 8), etagOf [1]⟩)
        (jsDrop "/static/a.json" 8) =
      some ⟨[1], contentTypeFor (jsDrop "/static/a.json" 8), etagOf [1]⟩ :=
  ⟨(c7_put_content_type ⟨"PUT", "/static/a.json", some "sec", [1]⟩
      ⟨some "sec", none, []⟩ "sec" rfl (by decide) rfl (by decide)).1,
   (c7_put_content_type ⟨"PUT", "/static/a.json", some "sec", [1]⟩
      ⟨some "sec", none, []⟩ "sec" rfl (by decide) rfl (by decide)).2.1⟩

/-- C8 (counterexample): with MAX_CACHE_AGE configured as the integer 0,
a GET of an existing object emits Cache-Control public, max-age=3600
rather than max-age=0, because the JS or-expression treats the configured
0 as falsy; the claim says the configured integer is emitted whenever the
option is present. -/
theorem c8_counterexample :
    (Env.mk (some "s") (some 0)
        [("k", ⟨[1, 2], "application/json", "e0"⟩)]).MAX_CACHE_AGE = some 0 ∧
    fetch ⟨"GET", "/static/k", none, []⟩
        ⟨some "s", some 0, [("k", ⟨[1, 2], "application/json", "e0"⟩)]⟩ =
      .ok ⟨200, [1, 2],
          [("content-type", "application/json"), ("etag", "e0"),
           ("Cache-Control", "public, max-age=3600")]⟩
        [("k", ⟨[1, 2], "application/json", "e0"⟩)] [.get "k"] ∧
    ("public, max-age=3600" : String) ≠ "public, max-age=0" := by decide

/-- C8 (amended): a GET of a non-empty key whose object exists is
answered 200 with the object bytes as body, the stored content type as
header, an etag header equal to the stored entity tag, and
Cache-Control public, max-age=CACHE_MAX_AGE, where CACHE_MAX_AGE is the
configured MAX_CACHE_AGE and defaults to 3600 when the option is absent
or configured as the falsy integer 0. -/
theorem c8_get_found (req : Request) (env : Env) (s : String)
    (obj : StoredObject) (hsk : env.AUTH_KEY_SECRET = some s)
    (hm : req.method = "GET")
    (hsw : jsStartsWith req.pathname "/static/" = true)
    (hne : jsDrop req.pathname 8 ≠ "")
    (hobj : storeGet env.LIVETIMING_BUCKET (jsDrop req.pathname 8) = some obj) :
    fetch req env =
      .ok ⟨200, obj.body,
          [("content-type", obj.contentType), ("etag", obj.httpEtag),
           ("Cache-Control",
            "public, max-age=" ++ toString (jsOr env.MAX_CACHE_AGE 3600))]⟩
        env.LIVETIMING_BUCKET [.get (jsDrop req.pathname 8)] := by
  obtain ⟨m, p, ah, bd⟩ := req
  obtain ⟨sk, mca, σ⟩ := env
  obtain rfl : sk = some s := hsk
  obtain rfl : m = "GET" := hm
  simp only at hsw hne hobj ⊢
  have e1 : ("content-type" : String) ≠ "etag" := by decide
  have e2 : ("content-type" : String) ≠ "Cache-Control" := by decide
  have e3 : ("etag" : String) ≠ "Cache-Control" := by decide
  simp [fetch, hsw, hne, hobj, supportedMethods, authenticatedMethods,
    headersSet, writeHttpMetadata, List.filter_cons, e1, e2, e3]

/-- C8 witness: the amended GET contract evaluated on a concrete bucket
holding one object, with MAX_CACHE_AGE configured as 7. -/
theorem c8_witness :
    fetch ⟨"GET", "/static/k", none, []⟩
        ⟨some "sec", some 7, [("k", ⟨[1], "text/plain", "e1"⟩)]⟩ =
      .ok ⟨200, [1],
          [("content-type", "text/plain"), ("etag", "e1"),
           ("Cache-Control", "public, max-age=" ++ toString (jsOr (some 7) 3600))]⟩
        [("k", ⟨[1], "text/plain", "e1"⟩)] [.get (jsDrop "/static/k" 8)] :=
  c8_get_found ⟨"GET", "/static/k", none, []⟩
    ⟨some "sec", some 7, [("k", ⟨[1], "text/plain", "e1"⟩)]⟩ "sec"
    ⟨[1], "text/plain", "e1"⟩ rfl rfl (by decide) (by decide) (by decide)

end LTMMirror
